import Mathlib

/-!
Shallow embedding of src/src/KafkaWriter.cc (a Kafka output backend for a
structured-logging framework).  The broker client (librdkafka) is modelled as
an oracle environment: the results of configuration application, producer and
topic construction, message submission, and the outbound queue length as a
function of the number of polls performed are parameters of the model.  The
writer code itself — the constructor snapshot, DoInit, DoWrite, DoFlush,
DoHeartbeat, DoFinish — is translated statement by statement.
-/

namespace KafkaWriter

/-- The host's shared script-level configuration store (the BifConst::Kafka
globals).  The constructor reads it once; the C++ code also reads
tag_json and debug again inside DoInit and max_wait_on_shutdown inside
DoFinish, so operations that perform such reads take the store current at
call time as an argument. -/
structure BifConstStore where
  tag_json : Bool
  topic_name : String
  kafka_conf : List (String × String)
  debug : String
  max_wait_on_shutdown : Int
deriving DecidableEq, Repr

/-- The formatter object allocated in DoInit: TaggedJSON carries the stream
path used for tagging; both use epoch timestamps. -/
inductive Formatter where
  | taggedJSON (path : String) : Formatter
  | plainJSON : Formatter
deriving DecidableEq, Repr

/-- Instance-owned state of one KafkaWriter backend: the thread-local
snapshot made by the constructor plus the handles.  Handles are modelled by
presence: the constructor initialises formatter, producer and topic to
NULL (none / false). -/
structure InstanceState where
  tag_json : Bool
  topic_name : String
  kafka_conf : List (String × String)
  formatter : Option Formatter
  producerSet : Bool
  topicSet : Bool
deriving DecidableEq, Repr

/-- KafkaWriter::KafkaWriter — copies tag_json, topic_name and kafka_conf
from the shared store into instance storage and nulls the handles.  (The
debug string is NOT copied by the constructor; DoInit reads it from the
shared store.) -/
def mkKafkaWriter (store : BifConstStore) : InstanceState :=
  { tag_json := store.tag_json
    topic_name := store.topic_name
    kafka_conf := store.kafka_conf
    formatter := none
    producerSet := false
    topicSet := false }

/-- Human-visible side-channel messages emitted through MsgThread::Info and
Error, modelled structurally. -/
inductive Message where
  | infoDebugOn (level : String) : Message
  | infoDebugOff : Message
  | infoCreatedProducer : Message
  | errConfSet (key val reason : String) : Message
  | errProducerCreate (reason : String) : Message
  | errTopicCreate (reason : String) : Message
  | errUndelivered (count : Nat) : Message
  | errSendFailed (reason : String) : Message
deriving DecidableEq, Repr

/-- Oracle for the broker client behaviour during DoInit: conf set results
(none = CONF_OK, some reason = rejected), producer construction (none =
success, some reason = returns NULL with that error), topic construction
by topic name. -/
structure BrokerEnv where
  confSet : String → String → Option String
  createProducer : Option String
  createTopic : String → Option String

/-- The conf-application loop of DoInit (lines 89-99): apply each key/value
pair in order; return the first rejected pair together with the reason, or
none when every pair is accepted. -/
def applyConfList (env : BrokerEnv) : List (String × String) → Option (String × String × String)
  | [] => none
  | (k, v) :: rest =>
    match env.confSet k v with
    | some err => some (k, v, err)
    | none => applyConfList env rest

/-- Result of one backend operation: the boolean returned to the host, the
instance state afterwards, and the messages emitted. -/
structure OpResult where
  ret : Bool
  state : InstanceState
  msgs : List Message
deriving Repr

/-- KafkaWriter::DoInit (lines 59-130), translated branch by branch.
store is the shared store at the time of the call: lines 67 and 75 read
BifConst::Kafka::tag_json and BifConst::Kafka::debug from it directly
rather than from the constructor snapshot. -/
def DoInit (s : InstanceState) (store : BifConstStore) (env : BrokerEnv)
    (path : String) : OpResult :=
  -- lines 62-64: default empty topic_name to the log stream path
  let tn := if s.topic_name.isEmpty then path else s.topic_name
  -- lines 67-71: allocate the formatter from the SHARED store tag_json
  let fmtr : Formatter :=
    if store.tag_json then Formatter.taggedJSON path else Formatter.plainJSON
  let s1 : InstanceState := { s with topic_name := tn, formatter := some fmtr }
  -- lines 74-82: debug string read from the shared store
  let debug := store.debug
  let is_debug : Bool := !debug.isEmpty
  let msgs0 : List Message :=
    if is_debug then [Message.infoDebugOn debug] else [Message.infoDebugOff]
  -- lines 89-99: apply user-defined settings, abort on first rejection
  match applyConfList env s1.kafka_conf with
  | some (k, v, err) =>
    { ret := false, state := s1, msgs := msgs0 ++ [Message.errConfSet k v err] }
  | none =>
    -- lines 101-108: apply the debug setting when enabled
    match (if is_debug then env.confSet "debug" debug else none) with
    | some err =>
      { ret := false, state := s1
        msgs := msgs0 ++ [Message.errConfSet "debug" debug err] }
    | none =>
      -- lines 111-115: create the producer
      match env.createProducer with
      | some err =>
        { ret := false, state := s1
          msgs := msgs0 ++ [Message.errProducerCreate err] }
      | none =>
        let s2 : InstanceState := { s1 with producerSet := true }
        -- lines 118-123: create the topic handle
        match env.createTopic tn with
        | some err =>
          { ret := false, state := s2
            msgs := msgs0 ++ [Message.errTopicCreate err] }
        | none =>
          let s3 : InstanceState := { s2 with topicSet := true }
          { ret := true, state := s3
            msgs := msgs0 ++
              (if is_debug then [Message.infoCreatedProducer] else []) }

/-- The drain loop of DoFinish (lines 145-148): poll_interval is fixed at
1000; outq n is the outbound queue length observed after n polls; returns
the number of loop iterations (= polls of 1000ms each) performed.
The loop runs while the queue is non-empty and waited <= max_wait, with
waited advancing by 1000 per iteration. -/
def drainGo (outq : Nat → Nat) (max_wait : Int) (polls : Nat) (waited : Int) : Nat :=
  if 0 < outq polls ∧ waited ≤ max_wait then
    drainGo outq max_wait (polls + 1) (waited + 1000)
  else
    polls
termination_by (max_wait + 1000 - waited).toNat
decreasing_by
  simp_wf
  omega

/-- Number of polls performed by the DoFinish drain loop started from
waited = 0. -/
def drainPolls (outq : Nat → Nat) (max_wait : Int) : Nat :=
  drainGo outq max_wait 0 0

/-- KafkaWriter::DoFinish (lines 137-162): drain, then success iff the
outbound queue is empty, reporting the undelivered count otherwise; delete
topic, producer and formatter unconditionally. -/
def DoFinish (s : InstanceState) (outq : Nat → Nat) (store : BifConstStore) : OpResult :=
  let max_wait := store.max_wait_on_shutdown
  let p := drainPolls outq max_wait
  let remaining := outq p
  { ret := remaining = 0
    state := { s with topicSet := false, producerSet := false, formatter := none }
    msgs := if remaining = 0 then [] else [Message.errUndelivered remaining] }

/-- C strlen over a byte list: the length of the longest prefix free of the
NUL byte. -/
def cStrlen (bs : List Nat) : Nat := (bs.takeWhile (fun b => b ≠ 0)).length

/-- Oracle for one DoWrite call: the byte buffer the formatter described the
record into, the error code produce returned (0 = ERR_NO_ERROR), and the
err2str rendering of codes. -/
structure WriteEnv where
  describeBytes : List Nat
  resp : Int
  err2str : Int → String

/-- Observable effects of one DoWrite call: the payload bytes handed to
produce, the length passed, and the timeouts of the polls performed. -/
structure WriteEffects where
  payload : List Nat
  payloadLen : Nat
  polls : List Int
deriving Repr

/-- KafkaWriter::DoWrite (lines 168-191): format the record, submit
(raw, strlen raw) to produce, poll(0) on success, report the error on
failure, and return true either way. -/
def DoWrite (s : InstanceState) (env : WriteEnv) : OpResult × WriteEffects :=
  let raw := env.describeBytes
  let len := cStrlen raw
  let payload := raw.take len
  if env.resp = 0 then
    ({ ret := true, state := s, msgs := [] },
     { payload := payload, payloadLen := len, polls := [0] })
  else
    ({ ret := true, state := s
       msgs := [Message.errSendFailed (env.err2str env.resp)] },
     { payload := payload, payloadLen := len, polls := [] })

/-- KafkaWriter::DoSetBuf (lines 202-206): no change in behavior. -/
def DoSetBuf (s : InstanceState) (enabled : Bool) : OpResult :=
  { ret := true, state := s, msgs := [] }

/-- KafkaWriter::DoFlush (lines 213-217): poll(0) and return true.  The
second component lists the poll timeouts performed. -/
def DoFlush (s : InstanceState) : OpResult × List Int :=
  ({ ret := true, state := s, msgs := [] }, [0])

/-- KafkaWriter::DoRotate (lines 228-232): acknowledge rotation
immediately. -/
def DoRotate (s : InstanceState) : OpResult :=
  { ret := true, state := s, msgs := [] }

/-- KafkaWriter::DoHeartbeat (lines 237-241): poll(0) and return true. -/
def DoHeartbeat (s : InstanceState) : OpResult × List Int :=
  ({ ret := true, state := s, msgs := [] }, [0])

/-! ### Helper lemmas -/

/-- The drain loop performs at most (max_wait / 1000) + 1 iterations beyond
its starting count: each iteration advances waited by 1000 and the loop
continues only while waited is at most max_wait. -/
theorem drainGo_le (outq : Nat → Nat) (mw : Int) (polls : Nat) (waited : Int) :
    drainGo outq mw polls waited ≤ polls + ((mw - waited).toNat / 1000 + 1) := by
  induction polls, waited using drainGo.induct outq mw with
  | case1 polls waited h ih =>
    rw [drainGo, if_pos h]
    by_cases h2 : waited + 1000 ≤ mw
    · omega
    · rw [drainGo, if_neg (by tauto)]
      omega
  | case2 polls waited h =>
    rw [drainGo, if_neg h]
    omega

/-- When every configuration pair is accepted, the conf-application loop
reports no rejection. -/
theorem applyConfList_eq_none (env : BrokerEnv) (l : List (String × String))
    (h : ∀ kv ∈ l, env.confSet kv.1 kv.2 = none) :
    applyConfList env l = none := by
  induction l with
  | nil => rfl
  | cons kv rest ih =>
    have hkv := h kv (List.mem_cons_self kv rest)
    simp only [applyConfList]
    rw [hkv]
    exact ih (fun kv2 hm => h kv2 (List.mem_cons_of_mem kv hm))

/-- When some configuration pair is rejected, the conf-application loop
returns a rejected pair from the list with its reason. -/
theorem applyConfList_rejects (env : BrokerEnv) (l : List (String × String))
    (h : ∃ kv ∈ l, (env.confSet kv.1 kv.2).isSome) :
    ∃ k v r, applyConfList env l = some (k, v, r)
      ∧ (k, v) ∈ l ∧ env.confSet k v = some r := by
  induction l with
  | nil => simp at h
  | cons kv rest ih =>
    rcases hc : env.confSet kv.1 kv.2 with _ | r
    · have h2 : ∃ kv2 ∈ rest, (env.confSet kv2.1 kv2.2).isSome := by
        rcases h with ⟨kv2, hm, hs⟩
        rcases List.mem_cons.mp hm with he | hm2
        · subst he; rw [hc] at hs; simp at hs
        · exact ⟨kv2, hm2, hs⟩
      rcases ih h2 with ⟨k, v, r, ha, hm, hcs⟩
      refine ⟨k, v, r, ?_, List.mem_cons_of_mem kv hm, hcs⟩
      simpa only [applyConfList, hc] using ha
    · refine ⟨kv.1, kv.2, r, ?_, by simp, hc⟩
      simp only [applyConfList, hc]

/-- DoInit stores the resolved topic name in the instance on every path,
success or failure. -/
theorem DoInit_topic_name (s : InstanceState) (store : BifConstStore)
    (env : BrokerEnv) (path : String) :
    (DoInit s store env path).state.topic_name
      = (if s.topic_name.isEmpty then path else s.topic_name) := by
  rcases hc : applyConfList env s.kafka_conf with _ | ⟨⟨k, v, err⟩⟩ <;>
  rcases hd : (if store.debug.isEmpty = false then env.confSet "debug" store.debug
      else none) with _ | derr <;>
  rcases hp : env.createProducer with _ | perr <;>
  rcases ht : env.createTopic (if s.topic_name.isEmpty then path else s.topic_name)
    with _ | terr <;>
  simp [DoInit, hc, hd, hp, ht]

/-- DoInit allocates the formatter (chosen from the shared store's tag_json)
before any failure can occur, so the resulting state holds it on every
path. -/
theorem DoInit_formatter (s : InstanceState) (store : BifConstStore)
    (env : BrokerEnv) (path : String) :
    (DoInit s store env path).state.formatter
      = some (if store.tag_json then Formatter.taggedJSON path
              else Formatter.plainJSON) := by
  rcases hc : applyConfList env s.kafka_conf with _ | ⟨⟨k, v, err⟩⟩ <;>
  rcases hd : (if store.debug.isEmpty = false then env.confSet "debug" store.debug
      else none) with _ | derr <;>
  rcases hp : env.createProducer with _ | perr <;>
  rcases ht : env.createTopic (if s.topic_name.isEmpty then path else s.topic_name)
    with _ | terr <;>
  simp [DoInit, hc, hd, hp, ht]

/-- When DoInit returns success every oracle step succeeded, so the
resulting state carries both handles, the formatter and the resolved
topic name. -/
theorem DoInit_success_state (s : InstanceState) (store : BifConstStore)
    (env : BrokerEnv) (path : String)
    (h : (DoInit s store env path).ret = true) :
    (DoInit s store env path).state =
      { s with
          topic_name := (if s.topic_name.isEmpty then path else s.topic_name)
          formatter := some (if store.tag_json then Formatter.taggedJSON path
                             else Formatter.plainJSON)
          producerSet := true
          topicSet := true } := by
  rcases hc : applyConfList env s.kafka_conf with _ | ⟨⟨k, v, err⟩⟩ <;>
  rcases hd : (if store.debug.isEmpty = false then env.confSet "debug" store.debug
      else none) with _ | derr <;>
  rcases hp : env.createProducer with _ | perr <;>
  rcases ht : env.createTopic (if s.topic_name.isEmpty then path else s.topic_name)
    with _ | terr <;>
  simp_all [DoInit, hc, hd, hp, ht]

/-- When the conf-application loop rejects a pair, DoInit stops before
constructing either handle and reports the pair with its reason. -/
theorem DoInit_conf_rejected_parts (s : InstanceState) (store : BifConstStore)
    (env : BrokerEnv) (path : String) (k v err : String)
    (hc : applyConfList env s.kafka_conf = some (k, v, err)) :
    (DoInit s store env path).ret = false
    ∧ (DoInit s store env path).state.producerSet = s.producerSet
    ∧ (DoInit s store env path).state.topicSet = s.topicSet
    ∧ Message.errConfSet k v err ∈ (DoInit s store env path).msgs := by
  simp [DoInit, hc]

/-- DoWrite never touches the instance state. -/
theorem DoWrite_state (s : InstanceState) (wenv : WriteEnv) :
    (DoWrite s wenv).1.state = s := by
  unfold DoWrite
  split <;> rfl

/-- A byte list containing the NUL byte has a strictly shorter strlen than
its length. -/
theorem cStrlen_lt_of_mem_zero (bs : List Nat) (h : 0 ∈ bs) :
    cStrlen bs < bs.length := by
  induction bs with
  | nil => simp at h
  | cons b rest ih =>
    by_cases hb : b = 0
    · subst hb
      simp [cStrlen, List.takeWhile]
    · rcases List.mem_cons.mp h with he | hm
      · exact absurd he.symm hb
      · have := ih hm
        simp only [cStrlen, List.takeWhile, List.length_cons] at *
        simp [hb] at *
        omega

/-- Taking strlen-many bytes is exactly the prefix before the first NUL. -/
theorem take_cStrlen (bs : List Nat) :
    bs.take (cStrlen bs) = bs.takeWhile (fun b => b ≠ 0) :=
  (List.prefix_iff_eq_take.mp (List.takeWhile_prefix _)).symm

/-- A non-empty string has isEmpty false. -/
theorem isEmpty_false_of_ne (s : String) (h : s ≠ "") : s.isEmpty = false := by
  rw [Bool.eq_false_iff]
  intro hemp
  exact h ((String.isEmpty_iff s).mp hemp)

/-! ### Claim theorems -/

/-- C1: DoFinish returns success exactly when the outbound queue length is
zero after the drain loop ends, and in both the success and the failure
case the topic handle, the producer handle and the formatter are released
before it returns. -/
theorem finish_success_iff_drained_and_releases (s : InstanceState)
    (outq : Nat → Nat) (store : BifConstStore) :
    ((DoFinish s outq store).ret = true
      ↔ outq (drainPolls outq store.max_wait_on_shutdown) = 0)
    ∧ (DoFinish s outq store).state.topicSet = false
    ∧ (DoFinish s outq store).state.producerSet = false
    ∧ (DoFinish s outq store).state.formatter = none := by
  refine ⟨?_, rfl, rfl, rfl⟩
  simp [DoFinish]

/-- C5: the drain loop of DoFinish terminates after a bounded number of
1000ms polls for every queue behaviour and bound, and concretely with
max_wait_on_shutdown = 2000 and a queue that never drains it performs
exactly 3 polls (3000ms of cumulative waiting, within the claimed
2000-3000ms), after which DoFinish returns failure reporting the remaining
message count. -/
theorem finish_drain_bounded (s : InstanceState) (outq : Nat → Nat)
    (store : BifConstStore) (hq : ∀ n, 0 < outq n)
    (hmw : store.max_wait_on_shutdown = 2000) :
    (∀ (q : Nat → Nat) (mw : Int), drainPolls q mw ≤ mw.toNat / 1000 + 1)
    ∧ drainPolls outq store.max_wait_on_shutdown = 3
    ∧ (DoFinish s outq store).ret = false
    ∧ (DoFinish s outq store).msgs = [Message.errUndelivered (outq 3)] := by
  have hb : ∀ (q : Nat → Nat) (mw : Int), drainPolls q mw ≤ mw.toNat / 1000 + 1 := by
    intro q mw
    have := drainGo_le q mw 0 0
    simpa [drainPolls] using this
  have h3 : drainPolls outq store.max_wait_on_shutdown = 3 := by
    rw [hmw]
    unfold drainPolls
    rw [drainGo, if_pos ⟨hq 0, by norm_num⟩]
    rw [drainGo, if_pos ⟨hq 1, by norm_num⟩]
    rw [drainGo, if_pos ⟨hq 2, by norm_num⟩]
    rw [drainGo, if_neg (by norm_num)]
  have hne : outq 3 ≠ 0 := (hq 3).ne.symm
  refine ⟨hb, h3, ?_, ?_⟩
  · simp [DoFinish, h3, hne]
  · simp [DoFinish, h3, hne]

/-- C5 witness: a queue stuck at 7 messages with max_wait_on_shutdown =
2000 drives the drain loop for exactly 3 polls and makes DoFinish fail
reporting 7 undelivered messages. -/
theorem finish_drain_bounded_witness :
    (∀ (q : Nat → Nat) (mw : Int), drainPolls q mw ≤ mw.toNat / 1000 + 1)
    ∧ drainPolls (fun _ => 7) (2000 : Int) = 3
    ∧ (DoFinish (mkKafkaWriter ⟨false, "t", [], "", 2000⟩) (fun _ => 7)
        ⟨false, "t", [], "", 2000⟩).ret = false
    ∧ (DoFinish (mkKafkaWriter ⟨false, "t", [], "", 2000⟩) (fun _ => 7)
        ⟨false, "t", [], "", 2000⟩).msgs = [Message.errUndelivered 7] :=
  finish_drain_bounded (mkKafkaWriter ⟨false, "t", [], "", 2000⟩) (fun _ => 7)
    ⟨false, "t", [], "", 2000⟩ (fun _ => by norm_num) rfl

/-- C8: DoFlush and DoHeartbeat each perform exactly one zero-timeout poll
of the broker event loop, return success to the host, and leave the
instance state (and hence everything the writer owns) unchanged. -/
theorem flush_heartbeat_single_zero_poll (s : InstanceState) :
    DoFlush s = ({ ret := true, state := s, msgs := [] }, [0])
    ∧ DoHeartbeat s = ({ ret := true, state := s, msgs := [] }, [0]) :=
  ⟨rfl, rfl⟩

/-- C2: when the broker configuration map holds at least one key/value pair
the broker configuration object rejects, DoInit returns failure, constructs
neither the producer handle nor the topic handle, and reports a rejected
key with its value and underlying reason. -/
theorem init_rejected_conf_fails_without_handles (store0 store : BifConstStore)
    (env : BrokerEnv) (path : String)
    (h : ∃ kv ∈ store0.kafka_conf, (env.confSet kv.1 kv.2).isSome) :
    (DoInit (mkKafkaWriter store0) store env path).ret = false
    ∧ (DoInit (mkKafkaWriter store0) store env path).state.producerSet = false
    ∧ (DoInit (mkKafkaWriter store0) store env path).state.topicSet = false
    ∧ ∃ k v reason, (k, v) ∈ store0.kafka_conf
        ∧ env.confSet k v = some reason
        ∧ Message.errConfSet k v reason
            ∈ (DoInit (mkKafkaWriter store0) store env path).msgs := by
  have h2 : ∃ kv ∈ (mkKafkaWriter store0).kafka_conf,
      (env.confSet kv.1 kv.2).isSome := h
  obtain ⟨k, v, r, hsome, hmem, hcs⟩ := applyConfList_rejects env _ h2
  obtain ⟨h1, hpr, hto, hms⟩ :=
    DoInit_conf_rejected_parts (mkKafkaWriter store0) store env path k v r hsome
  exact ⟨h1, hpr, hto, k, v, r, hmem, hcs, hms⟩

/-- C2 witness: a map holding the single pair (bad, x) that the broker
rejects with reason unknown option makes DoInit fail with no handles. -/
theorem init_rejected_conf_fails_without_handles_witness :
    (DoInit (mkKafkaWriter ⟨false, "t", [("bad", "x")], "", 0⟩)
        ⟨false, "t", [("bad", "x")], "", 0⟩
        ⟨fun _ _ => some "unknown option", none, fun _ => none⟩ "p").ret = false
    ∧ (DoInit (mkKafkaWriter ⟨false, "t", [("bad", "x")], "", 0⟩)
        ⟨false, "t", [("bad", "x")], "", 0⟩
        ⟨fun _ _ => some "unknown option", none, fun _ => none⟩ "p").state.producerSet
        = false
    ∧ (DoInit (mkKafkaWriter ⟨false, "t", [("bad", "x")], "", 0⟩)
        ⟨false, "t", [("bad", "x")], "", 0⟩
        ⟨fun _ _ => some "unknown option", none, fun _ => none⟩ "p").state.topicSet
        = false
    ∧ ∃ k v reason,
        (k, v) ∈ (⟨false, "t", [("bad", "x")], "", 0⟩ : BifConstStore).kafka_conf
        ∧ (⟨fun _ _ => some "unknown option", none, fun _ => none⟩ : BrokerEnv).confSet k v
            = some reason
        ∧ Message.errConfSet k v reason
            ∈ (DoInit (mkKafkaWriter ⟨false, "t", [("bad", "x")], "", 0⟩)
                ⟨false, "t", [("bad", "x")], "", 0⟩
                ⟨fun _ _ => some "unknown option", none, fun _ => none⟩ "p").msgs :=
  init_rejected_conf_fails_without_handles
    ⟨false, "t", [("bad", "x")], "", 0⟩ ⟨false, "t", [("bad", "x")], "", 0⟩
    ⟨fun _ _ => some "unknown option", none, fun _ => none⟩ "p"
    ⟨("bad", "x"), by simp, rfl⟩

/-- C3 evaluation: two runs constructed from identical shared stores but
whose shared store differs at init time (tag_json flipped from false to
true after construction) choose different formatters, because DoInit reads
tag_json from the shared store (line 67) instead of the constructor's
snapshot.  This refutes the claim that no operation after construction
reads the shared store again. -/
theorem init_formatter_depends_on_post_construction_store :
    (DoInit (mkKafkaWriter ⟨false, "t", [], "", 0⟩)
        ⟨true, "t", [], "", 0⟩
        ⟨fun _ _ => none, none, fun _ => none⟩ "p").state.formatter
    ≠ (DoInit (mkKafkaWriter ⟨false, "t", [], "", 0⟩)
        ⟨false, "t", [], "", 0⟩
        ⟨fun _ _ => none, none, fun _ => none⟩ "p").state.formatter := by
  rw [DoInit_formatter, DoInit_formatter]
  simp

/-- C4: when the broker client rejects a submission (produce returns a
nonzero error code), DoWrite reports the error with its reason, still
returns success to the host, and leaves the instance state unchanged so
subsequent writes may proceed. -/
theorem write_failure_reported_nonfatal (s : InstanceState) (wenv : WriteEnv)
    (h : wenv.resp ≠ 0) :
    (DoWrite s wenv).1.ret = true
    ∧ (DoWrite s wenv).1.state = s
    ∧ (DoWrite s wenv).1.msgs
        = [Message.errSendFailed (wenv.err2str wenv.resp)] := by
  unfold DoWrite
  rw [if_neg h]
  exact ⟨rfl, rfl, rfl⟩

/-- C4 witness: a submission failing with code 2 is reported with its
rendered reason while DoWrite returns true and keeps the state. -/
theorem write_failure_reported_nonfatal_witness :
    (DoWrite (mkKafkaWriter ⟨false, "t", [], "", 0⟩)
        ⟨[72, 105], 2, fun _ => "Local: Unknown topic"⟩).1.ret = true
    ∧ (DoWrite (mkKafkaWriter ⟨false, "t", [], "", 0⟩)
        ⟨[72, 105], 2, fun _ => "Local: Unknown topic"⟩).1.state
        = mkKafkaWriter ⟨false, "t", [], "", 0⟩
    ∧ (DoWrite (mkKafkaWriter ⟨false, "t", [], "", 0⟩)
        ⟨[72, 105], 2, fun _ => "Local: Unknown topic"⟩).1.msgs
        = [Message.errSendFailed "Local: Unknown topic"] :=
  write_failure_reported_nonfatal (mkKafkaWriter ⟨false, "t", [], "", 0⟩)
    ⟨[72, 105], 2, fun _ => "Local: Unknown topic"⟩ (by norm_num)

/-- C6: when DoInit returns success both the producer handle and the topic
handle are set, and every subsequent write, flush and heartbeat leaves the
state (hence both handles) untouched. -/
theorem init_success_handles_nonnull (s : InstanceState) (store : BifConstStore)
    (env : BrokerEnv) (path : String)
    (h : (DoInit s store env path).ret = true) :
    (DoInit s store env path).state.producerSet = true
    ∧ (DoInit s store env path).state.topicSet = true
    ∧ (∀ wenv : WriteEnv,
        (DoWrite (DoInit s store env path).state wenv).1.state
          = (DoInit s store env path).state)
    ∧ (DoFlush (DoInit s store env path).state).1.state
        = (DoInit s store env path).state
    ∧ (DoHeartbeat (DoInit s store env path).state).1.state
        = (DoInit s store env path).state := by
  have hs := DoInit_success_state s store env path h
  exact ⟨by rw [hs], by rw [hs], fun wenv => DoWrite_state _ wenv, rfl, rfl⟩

/-- C6 witness: with every oracle step succeeding, DoInit succeeds and the
resulting state has both handles set and is preserved by a write, a flush
and a heartbeat. -/
theorem init_success_handles_nonnull_witness :
    (DoInit (mkKafkaWriter ⟨false, "t", [], "", 0⟩) ⟨false, "t", [], "", 0⟩
        ⟨fun _ _ => none, none, fun _ => none⟩ "p").state.producerSet = true
    ∧ (DoInit (mkKafkaWriter ⟨false, "t", [], "", 0⟩) ⟨false, "t", [], "", 0⟩
        ⟨fun _ _ => none, none, fun _ => none⟩ "p").state.topicSet = true
    ∧ (DoWrite (DoInit (mkKafkaWriter ⟨false, "t", [], "", 0⟩)
        ⟨false, "t", [], "", 0⟩
        ⟨fun _ _ => none, none, fun _ => none⟩ "p").state
        ⟨[72], 0, fun _ => ""⟩).1.state
        = (DoInit (mkKafkaWriter ⟨false, "t", [], "", 0⟩) ⟨false, "t", [], "", 0⟩
            ⟨fun _ _ => none, none, fun _ => none⟩ "p").state
    ∧ (DoFlush (DoInit (mkKafkaWriter ⟨false, "t", [], "", 0⟩)
        ⟨false, "t", [], "", 0⟩
        ⟨fun _ _ => none, none, fun _ => none⟩ "p").state).1.state
        = (DoInit (mkKafkaWriter ⟨false, "t", [], "", 0⟩) ⟨false, "t", [], "", 0⟩
            ⟨fun _ _ => none, none, fun _ => none⟩ "p").state
    ∧ (DoHeartbeat (DoInit (mkKafkaWriter ⟨false, "t", [], "", 0⟩)
        ⟨false, "t", [], "", 0⟩
        ⟨fun _ _ => none, none, fun _ => none⟩ "p").state).1.state
        = (DoInit (mkKafkaWriter ⟨false, "t", [], "", 0⟩) ⟨false, "t", [], "", 0⟩
            ⟨fun _ _ => none, none, fun _ => none⟩ "p").state := by
  have h := init_success_handles_nonnull (mkKafkaWriter ⟨false, "t", [], "", 0⟩)
    ⟨false, "t", [], "", 0⟩ ⟨fun _ _ => none, none, fun _ => none⟩ "p" (by decide)
  exact ⟨h.1, h.2.1, h.2.2.1 ⟨[72], 0, fun _ => ""⟩, h.2.2.2.1, h.2.2.2.2⟩

/-- C7: DoInit resolves an empty snapshotted topic name to the
host-provided stream path and leaves a non-empty one unchanged. -/
theorem init_topic_defaulting (s : InstanceState) (store : BifConstStore)
    (env : BrokerEnv) (path : String) :
    (s.topic_name = "" → (DoInit s store env path).state.topic_name = path)
    ∧ (s.topic_name ≠ ""
        → (DoInit s store env path).state.topic_name = s.topic_name) := by
  have ht := DoInit_topic_name s store env path
  constructor
  · intro he
    rw [ht, he]
    simp [String.isEmpty_iff]
  · intro hne
    rw [ht, isEmpty_false_of_ne s.topic_name hne]
    simp

/-- C7 witness: empty topic name with stream path conn resolves to conn,
and topic name t stays t. -/
theorem init_topic_defaulting_witness :
    (DoInit (mkKafkaWriter ⟨false, "", [], "", 0⟩) ⟨false, "", [], "", 0⟩
        ⟨fun _ _ => none, none, fun _ => none⟩ "conn").state.topic_name = "conn"
    ∧ (DoInit (mkKafkaWriter ⟨false, "t", [], "", 0⟩) ⟨false, "t", [], "", 0⟩
        ⟨fun _ _ => none, none, fun _ => none⟩ "conn").state.topic_name = "t" :=
  ⟨(init_topic_defaulting (mkKafkaWriter ⟨false, "", [], "", 0⟩)
      ⟨false, "", [], "", 0⟩ ⟨fun _ _ => none, none, fun _ => none⟩ "conn").1 rfl,
   (init_topic_defaulting (mkKafkaWriter ⟨false, "t", [], "", 0⟩)
      ⟨false, "t", [], "", 0⟩ ⟨fun _ _ => none, none, fun _ => none⟩ "conn").2
      (by decide)⟩

/-- C9: when the serialized buffer contains a NUL byte, DoWrite submits
exactly the bytes preceding the first NUL (the length being strlen of the
buffer), strictly fewer than the full buffer length. -/
theorem write_truncates_at_first_nul (s : InstanceState) (wenv : WriteEnv)
    (h : 0 ∈ wenv.describeBytes) :
    (DoWrite s wenv).2.payload
        = wenv.describeBytes.takeWhile (fun b => b ≠ 0)
    ∧ (DoWrite s wenv).2.payloadLen = cStrlen wenv.describeBytes
    ∧ (DoWrite s wenv).2.payloadLen < wenv.describeBytes.length := by
  have h1 : (DoWrite s wenv).2.payload
      = wenv.describeBytes.take (cStrlen wenv.describeBytes) := by
    unfold DoWrite
    split <;> rfl
  have h2 : (DoWrite s wenv).2.payloadLen = cStrlen wenv.describeBytes := by
    unfold DoWrite
    split <;> rfl
  refine ⟨h1.trans (take_cStrlen _), h2, ?_⟩
  rw [h2]
  exact cStrlen_lt_of_mem_zero _ h

/-- C9 witness: the buffer 65, 0, 66 is truncated to the single byte 65
(strlen 1, shorter than the 3-byte buffer). -/
theorem write_truncates_at_first_nul_witness :
    (DoWrite (mkKafkaWriter ⟨false, "t", [], "", 0⟩)
        ⟨[65, 0, 66], 0, fun _ => ""⟩).2.payload
        = ([65, 0, 66] : List Nat).takeWhile (fun b => b ≠ 0)
    ∧ (DoWrite (mkKafkaWriter ⟨false, "t", [], "", 0⟩)
        ⟨[65, 0, 66], 0, fun _ => ""⟩).2.payloadLen = cStrlen [65, 0, 66]
    ∧ (DoWrite (mkKafkaWriter ⟨false, "t", [], "", 0⟩)
        ⟨[65, 0, 66], 0, fun _ => ""⟩).2.payloadLen
        < ([65, 0, 66] : List Nat).length :=
  write_truncates_at_first_nul (mkKafkaWriter ⟨false, "t", [], "", 0⟩)
    ⟨[65, 0, 66], 0, fun _ => ""⟩ (by decide)

/-- C10: when broker-client construction succeeds but topic-handle creation
fails, DoInit returns failure with the producer handle still live (and the
topic handle never set), and on every DoInit failure path the formatter
allocated at the start is still held (never released). -/
theorem init_topic_failure_keeps_producer (store0 store : BifConstStore)
    (env : BrokerEnv) (path : String) (terr : String)
    (hconf : ∀ kv ∈ store0.kafka_conf, env.confSet kv.1 kv.2 = none)
    (hdbg : env.confSet "debug" store.debug = none)
    (hp : env.createProducer = none)
    (ht : env.createTopic
        (if store0.topic_name.isEmpty then path else store0.topic_name)
        = some terr) :
    (DoInit (mkKafkaWriter store0) store env path).ret = false
    ∧ (DoInit (mkKafkaWriter store0) store env path).state.producerSet = true
    ∧ (DoInit (mkKafkaWriter store0) store env path).state.topicSet = false
    ∧ (DoInit (mkKafkaWriter store0) store env path).state.formatter.isSome = true
    ∧ ∀ (s2 : InstanceState) (store2 : BifConstStore) (env2 : BrokerEnv)
        (path2 : String),
        (DoInit s2 store2 env2 path2).ret = false
        → (DoInit s2 store2 env2 path2).state.formatter.isSome = true := by
  have hc : applyConfList env store0.kafka_conf = none :=
    applyConfList_eq_none env _ hconf
  refine ⟨?_, ?_, ?_, ?_, ?_⟩
  · simp [DoInit, mkKafkaWriter, hc, hdbg, hp, ht]
  · simp [DoInit, mkKafkaWriter, hc, hdbg, hp, ht]
  · simp [DoInit, mkKafkaWriter, hc, hdbg, hp, ht]
  · rw [DoInit_formatter]
    rfl
  · intro s2 store2 env2 path2 _
    rw [DoInit_formatter]
    rfl

/-- C10 witness: all configuration accepted, producer created, topic
creation failing with reason no such topic: DoInit fails with producer
still set and formatter still held. -/
theorem init_topic_failure_keeps_producer_witness :
    (DoInit (mkKafkaWriter ⟨false, "t", [], "", 0⟩) ⟨false, "t", [], "", 0⟩
        ⟨fun _ _ => none, none, fun _ => some "no such topic"⟩ "p").ret = false
    ∧ (DoInit (mkKafkaWriter ⟨false, "t", [], "", 0⟩) ⟨false, "t", [], "", 0⟩
        ⟨fun _ _ => none, none, fun _ => some "no such topic"⟩ "p").state.producerSet
        = true
    ∧ (DoInit (mkKafkaWriter ⟨false, "t", [], "", 0⟩) ⟨false, "t", [], "", 0⟩
        ⟨fun _ _ => none, none, fun _ => some "no such topic"⟩ "p").state.topicSet
        = false
    ∧ (DoInit (mkKafkaWriter ⟨false, "t", [], "", 0⟩) ⟨false, "t", [], "", 0⟩
        ⟨fun _ _ => none, none,
          fun _ => some "no such topic"⟩ "p").state.formatter.isSome = true
    ∧ ∀ (s2 : InstanceState) (store2 : BifConstStore) (env2 : BrokerEnv)
        (path2 : String),
        (DoInit s2 store2 env2 path2).ret = false
        → (DoInit s2 store2 env2 path2).state.formatter.isSome = true :=
  init_topic_failure_keeps_producer ⟨false, "t", [], "", 0⟩
    ⟨false, "t", [], "", 0⟩
    ⟨fun _ _ => none, none, fun _ => some "no such topic"⟩ "p" "no such topic"
    (by simp) rfl rfl rfl

end KafkaWriter
